import Mathlib

/-!
Shallow embedding of the `iot-adt/rfid-module` device controller
(`src/rfid_module.py` and `src/rfid_module_enroll.py`) and proofs about it.

Conventions:
* Time is measured in tenths of a second (the finest granularity in the
  source: `time.sleep(0.1)`), so `0.5 s = 5`, `2 s = 20`.
* The PN532 peripheral is abstracted as a stub function from poll / attempt
  index to its observable behaviour (success, no card, raise), exactly the
  interface the Python code consumes.
* Loops with a wall-clock guard are written with an explicit fuel argument
  that over-approximates the number of remaining iterations; every iteration
  advances elapsed time by at least one tenth, so fuel `timeout` (tenths)
  suffices and the fuel-exhausted branch is unreachable from the entry call.
-/

namespace Rfid

/-! ## HardwareController: primitive GPIO/buzzer actions

`HardwareController` in both scripts drives three output pins.  Each indicator
method is a straight-line sequence of GPIO writes and sleeps; we record that
sequence as a list of primitive actions. -/

inductive HwAction where
  | ledOn (pin : Nat)
  | ledOff (pin : Nat)
  | buzzerOn
  | buzzerOff
  | sleep (tenths : Nat)
  deriving DecidableEq, Repr

/-- `HardwareController._blink_led(led_pin, duration)`:
GPIO HIGH, sleep, GPIO LOW (both scripts, identical). -/
def blink_led (pin : Nat) (durationTenths : Nat) : List HwAction :=
  [HwAction.ledOn pin, HwAction.sleep durationTenths, HwAction.ledOff pin]

/-- `HardwareController._beep(duration)`:
buzzer HIGH, sleep, buzzer LOW (both scripts, identical). -/
def beep (durationTenths : Nat) : List HwAction :=
  [HwAction.buzzerOn, HwAction.sleep durationTenths, HwAction.buzzerOff]

/-- Number of buzzer activations in an action sequence. -/
def buzzCount (l : List HwAction) : Nat :=
  l.count HwAction.buzzerOn

/-- Number of times the given LED pin is switched on in an action sequence. -/
def ledOnCount (pin : Nat) (l : List HwAction) : Nat :=
  l.count (HwAction.ledOn pin)

namespace ReaderScript
/-! `src/rfid_module.py`: pins green=15, red=14, buzzer=10. -/

def green_led_pin : Nat := 15
def red_led_pin : Nat := 14

/-- `indicate_success` (rfid_module.py line 45):
`self._beep(0.1); self._blink_led(green, 2)`. -/
def indicate_success : List HwAction :=
  beep 1 ++ blink_led green_led_pin 20

/-- One iteration of the `indicate_failure` loop body (rfid_module.py
lines 52-55): `self._beep(0.1); self._blink_led(red, 0.1); time.sleep(0.1)`. -/
def failure_unit : List HwAction :=
  beep 1 ++ blink_led red_led_pin 1 ++ [HwAction.sleep 1]

/-- `indicate_failure` (rfid_module.py line 50): `for _ in range(2): ...`. -/
def indicate_failure : List HwAction :=
  (List.replicate 2 failure_unit).flatten

/-- `start_enrollment_indicator` (rfid_module.py line 57):
`self._blink_led(green, 0.5)`. -/
def start_enrollment_indicator : List HwAction :=
  blink_led green_led_pin 5

end ReaderScript

namespace EnrollScript
/-! `src/rfid_module_enroll.py`: pins green=14, red=15, buzzer=10. -/

def green_led_pin : Nat := 14
def red_led_pin : Nat := 15

/-- `indicate_success` (rfid_module_enroll.py line 48):
`self._blink_led(green, 2)` — no beep in this variant. -/
def indicate_success : List HwAction :=
  blink_led green_led_pin 20

/-- `indicate_failure` (rfid_module_enroll.py line 52):
`for _ in range(2): time.sleep(0.1)` then `self._blink_led(red, 2)` —
the loop body only sleeps; the red LED blinks a single time. -/
def indicate_failure : List HwAction :=
  (List.replicate 2 [HwAction.sleep 1]).flatten ++ blink_led red_led_pin 20

end EnrollScript

/-! ## PN532Handler._initialize_pn532 (identical in both scripts)

```
for attempt in range(self.retry_count):
    try:
        ... bring-up ...
        return True
    except Exception:
        if attempt < self.retry_count - 1:
            time.sleep(2)
        else:
            raise RuntimeError(...)
```

The bring-up attempt is abstracted as `stub attempt : Bool` (`true` =
attempt succeeds).  We record how many attempts ran, how many inter-attempt
backoff sleeps happened, and how the call ended. -/

inductive InitOutcome where
  /-- an attempt succeeded; `self.pn532` is assigned and `True` returned -/
  | ok
  /-- all attempts failed; `RuntimeError` raised -/
  | raised
  /-- the `for` loop body never ran (`retry_count = 0`); the method falls
  through, returns `None`, and `self.pn532` is never assigned -/
  | skipped
  deriving DecidableEq, Repr

structure InitResult where
  attempts : Nat
  backoffs : Nat
  outcome : InitOutcome
  deriving DecidableEq, Repr

/-- The retry loop of `_initialize_pn532`, with explicit fuel (the number of
loop iterations still permitted; the entry call passes `retry`, which is
exact). `attempt` is the Python loop variable. -/
def initFrom (stub : Nat → Bool) (retry : Nat) : Nat → Nat → InitResult
  | 0, _ => ⟨0, 0, InitOutcome.skipped⟩
  | fuel + 1, attempt =>
    if attempt < retry then
      if stub attempt then ⟨1, 0, InitOutcome.ok⟩
      else if attempt < retry - 1 then
        let r := initFrom stub retry fuel (attempt + 1)
        ⟨r.attempts + 1, r.backoffs + 1, r.outcome⟩
      else ⟨1, 0, InitOutcome.raised⟩
    else ⟨0, 0, InitOutcome.skipped⟩

/-- `_initialize_pn532` given the attempt stub and `self.retry_count`. -/
def initialize_pn532 (stub : Nat → Bool) (retry : Nat) : InitResult :=
  initFrom stub retry retry 0

/-! ## PN532Handler.read_card (identical in both scripts)

```
start_time = time.time()
while time.time() - start_time < timeout:
    try:
        uid = self.pn532.read_passive_target(timeout=0.5)
        if uid is not None:
            return bytes(uid).hex()
    except Exception:
        print(...)
        time.sleep(0.1)
return None
```

Each poll of the peripheral is abstracted by `stub i : PollResult`.  A poll
that completes without a card blocks for the driver poll window (0.5 s = 5
tenths); a poll that raises does so immediately and is followed by the
0.1 s pause (= 1 tenth).  `read_card` returns the UID (or `none`) together
with the elapsed time at return. -/

inductive PollResult where
  /-- `read_passive_target` returned a UID; `read_card` returns its hex -/
  | found (uid : String)
  /-- `read_passive_target` returned `None` after its 0.5 s window -/
  | noCard
  /-- `read_passive_target` raised (bus error, or, when `self.pn532` was
  never assigned, `AttributeError`); caught, logged, `sleep(0.1)` -/
  | raises
  deriving DecidableEq, Repr

/-- Poll window of `read_passive_target(timeout=0.5)` in tenths. -/
def pollTime : Nat := 5

/-- Pause `time.sleep(0.1)` after a raising poll, in tenths. -/
def errPause : Nat := 1

/-- The polling loop of `read_card`: `i` is the poll index, `t` the elapsed
time in tenths; fuel over-approximates the remaining iterations (every
iteration advances `t` by at least `errPause = 1`, so fuel `timeout`
suffices from the entry call). -/
def read_card_go (stub : Nat → PollResult) (timeout : Nat) :
    Nat → Nat → Nat → Option String × Nat
  | 0, _, t => (none, t)
  | fuel + 1, i, t =>
    if t < timeout then
      match stub i with
      | PollResult.found u => (some u, t + pollTime)
      | PollResult.noCard => read_card_go stub timeout fuel (i + 1) (t + pollTime)
      | PollResult.raises => read_card_go stub timeout fuel (i + 1) (t + errPause)
    else (none, t)

/-- `read_card(timeout)` against poll stub `stub`; `timeout` in tenths. -/
def read_card (stub : Nat → PollResult) (timeout : Nat) : Option String × Nat :=
  read_card_go stub timeout timeout 0 0

/-! ## Indicator outcome signals

`true` = `indicate_success`, `false` = `indicate_failure`. -/

/-! ## PN532Handler.check_card_access (rfid_module.py, Reader mode)

```
while True:
    card_id = self.read_card()
    if card_id is None: continue
    try:
        response = requests.get(f"{API_BASE_URL}/api/entry/{card_id}", ...)
        if response.status_code == 200 and response.json().get('allowed'):
            self.hw.indicate_success()
        else:
            self.hw.indicate_failure()
    except requests.RequestException:
        self.hw.indicate_failure()
    time.sleep(0.5)
```

The whole `while` sits inside an outer `try ... except Exception` which only
prints and returns, so an exception that the inner `except
requests.RequestException` does not catch terminates the loop.

One cycle's remote interaction is abstracted as `CheckOutcome`. -/

inductive CheckOutcome where
  /-- `requests.get` returned a response whose JSON body is an object; the
  condition reads `response.status_code` and the truthiness of
  `response.json().get('allowed')` -/
  | httpResponse (status : Nat) (allowed : Bool)
  /-- `requests.get` (or the body parse in requests ≥ 2.27) raised
  `requests.RequestException`: caught by the inner handler -/
  | requestException
  /-- any other exception while handling the response (e.g. the JSON body is
  not an object, so `.get` raises `AttributeError`): not caught by the inner
  handler, so the outer `except Exception` ends the loop -/
  | nonRequestException
  deriving DecidableEq, Repr

/-- An event in a mode loop's execution trace. -/
inductive Ev where
  /-- a `read_card` call begins -/
  | readCard
  /-- the remote HTTP call completed (response or exception: outcome known) -/
  | remoteCall
  /-- indicator signal: `true` = `indicate_success`, `false` = `indicate_failure` -/
  | signal (ok : Bool)
  /-- an inter-cycle `time.sleep` -/
  | cooldown
  deriving DecidableEq, Repr

/-- One cycle of `check_card_access`: input `none` means `read_card` returned
`None` (loop continues immediately); `some o` means a card was read and the
remote interaction had outcome `o`.  Returns the cycle's event trace and
whether the loop continues afterwards. -/
def readerCycle (c : Option CheckOutcome) : List Ev × Bool :=
  match c with
  | none => ([Ev.readCard], true)
  | some (CheckOutcome.httpResponse status allowed) =>
    ([Ev.readCard, Ev.remoteCall, Ev.signal (status == 200 && allowed), Ev.cooldown], true)
  | some CheckOutcome.requestException =>
    ([Ev.readCard, Ev.remoteCall, Ev.signal false, Ev.cooldown], true)
  | some CheckOutcome.nonRequestException =>
    ([Ev.readCard, Ev.remoteCall], false)

/-- Run `check_card_access` over a list of cycle inputs; the trace stops as
soon as a cycle ends the loop. -/
def readerRun : List (Option CheckOutcome) → List Ev
  | [] => []
  | c :: rest =>
    (readerCycle c).1 ++ (if (readerCycle c).2 then readerRun rest else [])

/-- Indicator signals fired during a trace. -/
def signalsOf (tr : List Ev) : List Bool :=
  tr.filterMap fun e =>
    match e with
    | Ev.signal b => some b
    | _ => none

/-- Signals fired during one `check_card_access` cycle. -/
def readerSignals (c : Option CheckOutcome) : List Bool :=
  signalsOf (readerCycle c).1

/-! ## PN532Handler.start_enrollment_server (rfid_module_enroll.py,
auto-capture loop, lines 171-192)

```
try:
    while True:
        card_id = self.read_card(timeout=10)
        if card_id is None:
            time.sleep(0.5); continue
        response = requests.post(f"{API_BASE_URL}/temporary-user?rfid={card_id}")
        self.hw.indicate_success()
        time.sleep(3)
except KeyboardInterrupt: ...
except Exception:
    self.hw.indicate_failure()
finally:
    GPIO.cleanup()
```

The `try` is outside the `while`: `requests.post` is not guarded inside the
loop, so any exception it raises terminates the loop (one `indicate_failure`,
then GPIO cleanup).  On a response — whatever its status — `indicate_success`
fires. -/

inductive EnrollRemote where
  /-- `requests.post` returned a response with this status (not inspected) -/
  | response (status : Nat)
  /-- `requests.post` raised; caught only by the `except` outside the loop -/
  | raise
  deriving DecidableEq, Repr

/-- One cycle of the auto-capture enrollment loop: `none` = read timed out,
`some r` = card read, remote call had outcome `r`.  Returns the cycle's
events and whether the loop continues. -/
def enrollCycle (c : Option EnrollRemote) : List Ev × Bool :=
  match c with
  | none => ([Ev.readCard, Ev.cooldown], true)
  | some (EnrollRemote.response _) =>
    ([Ev.readCard, Ev.remoteCall, Ev.signal true, Ev.cooldown], true)
  | some EnrollRemote.raise =>
    ([Ev.readCard, Ev.remoteCall, Ev.signal false], false)

/-- Run the auto-capture enrollment loop over a list of cycle inputs. -/
def enrollRun : List (Option EnrollRemote) → List Ev
  | [] => []
  | c :: rest =>
    (enrollCycle c).1 ++ (if (enrollCycle c).2 then enrollRun rest else [])

/-- Ordering checker for a mode-loop trace.  The flag records whether a
remote outcome is known but its indicator signal has not yet completed:
a signal may fire only while the flag is set (outcome known first), and a
new `read_card` may start only while it is clear (signaling completed). -/
def ordCheck : Bool → List Ev → Bool
  | _, [] => true
  | pending, e :: rest =>
    match e with
    | Ev.readCard => !pending && ordCheck false rest
    | Ev.remoteCall => ordCheck true rest
    | Ev.signal _ => pending && ordCheck false rest
    | Ev.cooldown => ordCheck pending rest

/-! ## The /api enrollment route (rfid_module.py, lines 147-183)

```
@app.route('/api', methods=['POST'])
def enroll():
    try:
        self.hw.start_enrollment_indicator()
        card_id = self.read_card(timeout=10)
        if card_id is None:
            self.hw.indicate_failure()
            return jsonify({'status': 'error', 'message': '카드 읽기 시간 초과'}), 408
        response = requests.post(f"{API_BASE_URL}/users/enroll", json={'card_id': card_id}, ...)
        if response.status_code == 200:
            self.hw.indicate_success()
            return jsonify({'type': 'rfid', 'card_id': card_id,
                            'status': 'success', 'message': '카드 등록 성공'})
        else:
            self.hw.indicate_failure()
            return jsonify({'status': 'error', 'message': '원격 서버 등록 실패'}), 500
    except Exception as e:
        self.hw.indicate_failure()
        return jsonify({'status': 'error', 'message': str(e)}), 500
```
-/

/-- Outcome of the `requests.post` enroll call in the `/api` route. -/
inductive EnrollPostOutcome where
  | response (status : Nat)
  /-- `requests.post` raised with message `msg`; the route's `except` returns
  500 with `str(e)` -/
  | raise (msg : String)
  deriving DecidableEq, Repr

structure ApiResult where
  /-- HTTP status of the route's response -/
  httpStatus : Nat
  /-- the JSON body's `status` field -/
  bodyStatus : String
  /-- the JSON body's `message` field -/
  bodyMessage : String
  /-- the JSON body's `card_id` field, when present -/
  bodyCardId : Option String
  /-- indicator signals fired while handling the request (after the initial
  enrollment indicator): `true` = success cue, `false` = failure cue -/
  signals : List Bool
  /-- whether the remote `/users/enroll` request was made -/
  enrollCalled : Bool
  deriving DecidableEq, Repr

/-- The `/api` route body: `readResult` is what `read_card(timeout=10)`
returned, `post` what the remote enroll call did (unused when the read timed
out, since the route returns before reaching it). -/
def enroll_route (readResult : Option String) (post : EnrollPostOutcome) : ApiResult :=
  match readResult with
  | none =>
    { httpStatus := 408, bodyStatus := "error", bodyMessage := "카드 읽기 시간 초과"
      bodyCardId := none, signals := [false], enrollCalled := false }
  | some cardId =>
    match post with
    | EnrollPostOutcome.response status =>
      if status == 200 then
        { httpStatus := 200, bodyStatus := "success", bodyMessage := "카드 등록 성공"
          bodyCardId := some cardId, signals := [true], enrollCalled := true }
      else
        { httpStatus := 500, bodyStatus := "error", bodyMessage := "원격 서버 등록 실패"
          bodyCardId := none, signals := [false], enrollCalled := true }
    | EnrollPostOutcome.raise msg =>
      { httpStatus := 500, bodyStatus := "error", bodyMessage := msg
        bodyCardId := none, signals := [false], enrollCalled := true }

/-! ## The __main__ block (rfid_module.py, lines 202-212)

```
try:
    handler = PN532Handler(device_mode=DEVICE_MODE)
    ...run the selected mode...
except Exception as e:
    print(f"프로그램 오류: {str(e)}")
```

When `_initialize_pn532` exhausts its retries, the `RuntimeError` propagates
out of `PN532Handler.__init__` to this handler, which prints and falls off
the end of the script: the interpreter exits with status 0.  `self.hw` was
assigned before `_initialize_pn532` ran, so the partially constructed
handler's `__del__` finds it and calls `GPIO.cleanup()`. -/

structure ProcEnd where
  /-- the process exit status -/
  exitCode : Nat
  /-- whether `GPIO.cleanup()` ran before exit -/
  gpioCleaned : Bool
  /-- whether the top-level `except` printed the fatal error -/
  fatalErrorPrinted : Bool
  deriving DecidableEq, Repr

/-- Process end state of the `__main__` block as a function of what peripheral
initialization did (the mode loops themselves end only via
`KeyboardInterrupt`, after which the script also falls off the end). -/
def main_boot (stub : Nat → Bool) (retry : Nat) : ProcEnd :=
  match (initialize_pn532 stub retry).outcome with
  | InitOutcome.raised => { exitCode := 0, gpioCleaned := true, fatalErrorPrinted := true }
  | _ => { exitCode := 0, gpioCleaned := true, fatalErrorPrinted := false }

/-! ## Helper lemmas -/

/-- When the retry loop of `_initialize_pn532` runs against an always-failing
bring-up with `attempt < retry` iterations left, it performs the remaining
`retry - attempt` attempts with one backoff between consecutive attempts and
raises. -/
theorem initFrom_allFail (retry : Nat) :
    ∀ fuel attempt, attempt < retry → retry - attempt ≤ fuel →
      initFrom (fun _ => false) retry fuel attempt =
        ⟨retry - attempt, retry - attempt - 1, InitOutcome.raised⟩ := by
  intro fuel
  induction fuel with
  | zero => intro attempt h1 h2; omega
  | succ n ih =>
    intro attempt h1 h2
    by_cases h3 : attempt < retry - 1
    · have e := ih (attempt + 1) (by omega) (by omega)
      simp only [initFrom, if_pos h1, if_pos h3, e, Bool.false_eq_true, if_false]
      simp only [InitResult.mk.injEq, and_true]
      omega
    · simp only [initFrom, if_pos h1, if_neg h3, Bool.false_eq_true, if_false]
      simp only [InitResult.mk.injEq, and_true]
      omega

/-- When the bring-up first succeeds on 1-indexed attempt `k` (loop index
`k - 1`) and `k ≤ retry`, the retry loop starting at `attempt < k` performs
`k - attempt` further attempts and succeeds. -/
theorem initFrom_firstSuccess (retry k : Nat) :
    ∀ fuel attempt, attempt < k → k ≤ retry → k - attempt ≤ fuel →
      initFrom (fun i => i + 1 == k) retry fuel attempt =
        ⟨k - attempt, k - attempt - 1, InitOutcome.ok⟩ := by
  intro fuel
  induction fuel with
  | zero => intro attempt h1 h2 h3; omega
  | succ n ih =>
    intro attempt h1 h2 h3
    by_cases hk : attempt + 1 = k
    · have hs : (attempt + 1 == k) = true := by simp [hk]
      simp only [initFrom, if_pos (by omega : attempt < retry), hs, if_true]
      simp only [InitResult.mk.injEq, and_true]
      omega
    · have hs : (attempt + 1 == k) = false := by simp [hk]
      have e := ih (attempt + 1) (by omega) h2 (by omega)
      simp only [initFrom, if_pos (by omega : attempt < retry), hs, Bool.false_eq_true,
        if_false, if_pos (by omega : attempt < retry - 1), e]
      simp only [InitResult.mk.injEq, and_true]
      omega

/-- Once the elapsed time has reached the timeout, the `read_card` polling
loop returns `None` immediately, whatever fuel remains. -/
theorem read_card_go_done (stub : Nat → PollResult) (timeout : Nat) :
    ∀ fuel i t, timeout ≤ t → read_card_go stub timeout fuel i t = (none, t) := by
  intro fuel
  cases fuel with
  | zero => intro i t _; rfl
  | succ n => intro i t h; simp only [read_card_go, if_neg (by omega : ¬ t < timeout)]

/-- Against a peripheral that never produces a UID (each poll blocks for the
full `pollTime` window and returns `None`), the polling loop started strictly
before the deadline returns `None` at a time in `[timeout, timeout + pollTime)`. -/
theorem read_card_go_noCard (timeout : Nat) :
    ∀ fuel i t, t < timeout → timeout - t ≤ fuel →
      (read_card_go (fun _ => PollResult.noCard) timeout fuel i t).1 = none ∧
      timeout ≤ (read_card_go (fun _ => PollResult.noCard) timeout fuel i t).2 ∧
      (read_card_go (fun _ => PollResult.noCard) timeout fuel i t).2 < timeout + pollTime := by
  intro fuel
  induction fuel with
  | zero => intro i t h1 h2; omega
  | succ n ih =>
    intro i t h1 h2
    simp only [read_card_go, if_pos h1]
    by_cases h3 : t + pollTime < timeout
    · exact ih (i + 1) (t + pollTime) h3 (by simp only [pollTime] at *; omega)
    · rw [read_card_go_done _ _ n (i + 1) (t + pollTime) (by omega)]
      refine ⟨rfl, by omega, by simp only [pollTime] at *; omega⟩

/-- Against a peripheral whose every poll raises (each raising poll costs
`errPause`), the polling loop returns `(None, timeout)`: the error branch
never ends the window early and never escapes. -/
theorem read_card_go_raises (timeout : Nat) :
    ∀ fuel i t, t ≤ timeout → timeout - t ≤ fuel →
      read_card_go (fun _ => PollResult.raises) timeout fuel i t = (none, timeout) := by
  intro fuel
  induction fuel with
  | zero =>
    intro i t h1 h2
    have : t = timeout := by omega
    subst this; rfl
  | succ n ih =>
    intro i t h1 h2
    by_cases h3 : t < timeout
    · simp only [read_card_go, if_pos h3]
      exact ih (i + 1) (t + errPause) (by simp only [errPause]; omega)
        (by simp only [errPause]; omega)
    · have ht : t = timeout := by omega
      rw [read_card_go_done _ _ (n + 1) i t (by omega), ht]

/-- Every trace of `check_card_access` passes the ordering checker: signals
fire only once the remote outcome of the current event is known, and a new
`read_card` starts only once the pending signal has completed. -/
theorem reader_ordCheck_ok : ∀ l, ordCheck false (readerRun l) = true := by
  intro l
  induction l with
  | nil => rfl
  | cons c rest ih =>
    cases c with
    | none => simpa [readerRun, readerCycle, ordCheck] using ih
    | some o =>
      cases o with
      | httpResponse status allowed =>
        simpa [readerRun, readerCycle, ordCheck] using ih
      | requestException => simpa [readerRun, readerCycle, ordCheck] using ih
      | nonRequestException => simp [readerRun, readerCycle, ordCheck]

/-- Every trace of the auto-capture enrollment loop passes the ordering
checker. -/
theorem enroll_ordCheck_ok : ∀ l, ordCheck false (enrollRun l) = true := by
  intro l
  induction l with
  | nil => rfl
  | cons c rest ih =>
    cases c with
    | none => simpa [enrollRun, enrollCycle, ordCheck] using ih
    | some o =>
      cases o with
      | response status => simpa [enrollRun, enrollCycle, ordCheck] using ih
      | raise => simp [enrollRun, enrollCycle, ordCheck]

/-! ## Claims -/

/-- Claim C1: in Reader mode, for a card-read event whose remote
`checkAccess` call returns a 200 response with `allowed` true, exactly one
Success signal and no Failure signal fires; for a response with `allowed`
false or a non-200 status, and for a failed call
(`requests.RequestException`), exactly one Failure signal and no Success
signal fires (fail-closed, exhaustive over the remote outcomes). -/
theorem claim1_reader_fail_closed (status : Nat) (allowed : Bool) :
    (status = 200 ∧ allowed = true →
      (readerSignals (some (CheckOutcome.httpResponse status allowed))).count true = 1 ∧
      (readerSignals (some (CheckOutcome.httpResponse status allowed))).count false = 0) ∧
    (¬ (status = 200 ∧ allowed = true) →
      (readerSignals (some (CheckOutcome.httpResponse status allowed))).count false = 1 ∧
      (readerSignals (some (CheckOutcome.httpResponse status allowed))).count true = 0) ∧
    ((readerSignals (some CheckOutcome.requestException)).count false = 1 ∧
     (readerSignals (some CheckOutcome.requestException)).count true = 0) := by
  refine ⟨?_, ?_, by decide⟩
  · rintro ⟨rfl, rfl⟩
    decide
  · intro h
    have hb : (status == 200 && allowed) = false := by
      cases allowed with
      | false => simp
      | true =>
        have hs : status ≠ 200 := fun hs => h ⟨hs, rfl⟩
        simp [hs]
    simp [readerSignals, signalsOf, readerCycle, hb]

/-- Claim C1 witness: the theorem applied at a granted event (200, allowed)
and at a denied event (404). -/
theorem claim1_reader_fail_closed_witness :
    ((readerSignals (some (CheckOutcome.httpResponse 200 true))).count true = 1 ∧
     (readerSignals (some (CheckOutcome.httpResponse 200 true))).count false = 0) ∧
    ((readerSignals (some (CheckOutcome.httpResponse 404 true))).count false = 1 ∧
     (readerSignals (some (CheckOutcome.httpResponse 404 true))).count true = 0) :=
  ⟨(claim1_reader_fail_closed 200 true).1 ⟨rfl, rfl⟩,
   ((claim1_reader_fail_closed 404 true).2).1 (by decide)⟩

/-- Claim C2 (amended: for every retry count `n ≥ 1` — with `retry_count = 0`
the loop body never runs and nothing is raised): `_initialize_pn532` against
an always-failing bring-up makes exactly `n` attempts with the 2 s backoff
between consecutive attempts (`n - 1` backoffs, none after the last) and
raises `RuntimeError`; against a bring-up that first succeeds on attempt
`k ≤ n` (1-indexed, `k ≥ 1`) it makes exactly `k` attempts, `k - 1`
backoffs, and succeeds. -/
theorem claim2_init_attempt_counts (n : Nat) (hn : 1 ≤ n) :
    initialize_pn532 (fun _ => false) n = ⟨n, n - 1, InitOutcome.raised⟩ ∧
    ∀ k, 1 ≤ k → k ≤ n →
      initialize_pn532 (fun i => i + 1 == k) n = ⟨k, k - 1, InitOutcome.ok⟩ := by
  constructor
  · simpa [initialize_pn532] using initFrom_allFail n n 0 (by omega) (by omega)
  · intro k hk1 hk2
    simpa [initialize_pn532] using initFrom_firstSuccess n k n 0 (by omega) hk2 (by omega)

/-- Claim C2 witness: three retries against an always-failing bring-up, and
success on the second of three attempts. -/
theorem claim2_init_attempt_counts_witness :
    initialize_pn532 (fun _ => false) 3 = ⟨3, 2, InitOutcome.raised⟩ ∧
    initialize_pn532 (fun i => i + 1 == 2) 3 = ⟨2, 1, InitOutcome.ok⟩ :=
  ⟨(claim2_init_attempt_counts 3 (by decide)).1,
   (claim2_init_attempt_counts 3 (by decide)).2 2 (by decide) (by decide)⟩

/-- Claim C2 counterexample: with `retry_count = 0` the claim's universally
quantified statement fails — the `for` loop body never runs, so
`_initialize_pn532` does not raise the initialization error. -/
theorem claim2_counterexample :
    (initialize_pn532 (fun _ => false) 0).outcome ≠ InitOutcome.raised := by
  decide

/-- Claim C3 (amended: the process does terminate after a fatal peripheral
init failure and GPIO is released via the destructor, but the exit status is
0, not non-zero — the `__main__` handler catches the `RuntimeError`, prints
the error, and the script falls off its end): for every peripheral stub and
retry count whose initialization raises, the process ends with exit code 0,
the fatal error printed, and `GPIO.cleanup()` run. -/
theorem claim3_fatal_init_exit (stub : Nat → Bool) (retry : Nat)
    (h : (initialize_pn532 stub retry).outcome = InitOutcome.raised) :
    main_boot stub retry =
      { exitCode := 0, gpioCleaned := true, fatalErrorPrinted := true } := by
  simp [main_boot, h]

/-- Claim C3 witness: an always-failing peripheral with the default 3
retries. -/
theorem claim3_fatal_init_exit_witness :
    main_boot (fun _ => false) 3 =
      { exitCode := 0, gpioCleaned := true, fatalErrorPrinted := true } :=
  claim3_fatal_init_exit (fun _ => false) 3 (by decide)

/-- Claim C3 counterexample: when the retry budget is exhausted at boot the
process exit status is not non-zero — the top-level `except Exception`
swallows the `RuntimeError` and the interpreter exits with status 0. -/
theorem claim3_counterexample :
    ¬ 0 < (main_boot (fun _ => false) 3).exitCode := by
  decide

/-- Claim C4 (amended: in the Verification loop a remote-call
`requests.RequestException` during a card event is caught and the loop
continues, but any other exception while processing a card event is caught
only by the handler outside the `while` and terminates the loop; in the
auto-capture Enrollment loop the `try` is outside the `while`, so any
exception during a cycle — in particular a remote-call error from the
unguarded `requests.post` — terminates the loop after one Failure signal):
continuation flags of each cycle kind, and the Failure signal on the
enrollment loop's fatal path. -/
theorem claim4_loop_continuation :
    (∀ status allowed,
      (readerCycle (some (CheckOutcome.httpResponse status allowed))).2 = true) ∧
    (readerCycle (some CheckOutcome.requestException)).2 = true ∧
    (readerCycle none).2 = true ∧
    (readerCycle (some CheckOutcome.nonRequestException)).2 = false ∧
    (enrollCycle none).2 = true ∧
    (∀ status, (enrollCycle (some (EnrollRemote.response status))).2 = true) ∧
    (enrollCycle (some EnrollRemote.raise)).2 = false ∧
    signalsOf (enrollCycle (some EnrollRemote.raise)).1 = [false] :=
  ⟨fun _ _ => rfl, rfl, rfl, rfl, rfl, fun _ => rfl, rfl, rfl⟩

/-- Claim C4 counterexample: a remote-call exception in the auto-capture
enrollment loop does not let the loop continue with the next cycle — the
cycle's continuation flag is false (the exception is only caught outside the
`while`). -/
theorem claim4_counterexample :
    ¬ (enrollCycle (some EnrollRemote.raise)).2 = true := by
  decide

/-- Claim C5 (amended: the rfid_module.py indicator satisfies the claim —
Success is one beep plus one green pulse, Failure is the beep+red-blink cue
repeated exactly twice with a pause inside each repetition; but in
rfid_module_enroll.py, Success is a single green pulse with no tone, and
Failure is two 0.1 s sleeps followed by a single 2 s red blink, not a
twice-repeated cue): exact cue structure of both variants. -/
theorem claim5_indicator_cues :
    (buzzCount ReaderScript.indicate_success = 1 ∧
     ledOnCount ReaderScript.green_led_pin ReaderScript.indicate_success = 1 ∧
     ReaderScript.indicate_failure = ReaderScript.failure_unit ++ ReaderScript.failure_unit ∧
     buzzCount ReaderScript.failure_unit = 1 ∧
     ledOnCount ReaderScript.red_led_pin ReaderScript.failure_unit = 1 ∧
     buzzCount ReaderScript.indicate_failure = 2 ∧
     ledOnCount ReaderScript.red_led_pin ReaderScript.indicate_failure = 2) ∧
    (buzzCount EnrollScript.indicate_success = 0 ∧
     ledOnCount EnrollScript.green_led_pin EnrollScript.indicate_success = 1 ∧
     EnrollScript.indicate_failure =
       [HwAction.sleep 1, HwAction.sleep 1] ++ blink_led EnrollScript.red_led_pin 20 ∧
     buzzCount EnrollScript.indicate_failure = 0 ∧
     ledOnCount EnrollScript.red_led_pin EnrollScript.indicate_failure = 1) := by
  decide

/-- Claim C5 counterexample: in the rfid_module_enroll.py variant the Success
cue contains no tone and the Failure cue lights the red LED once, not twice,
so the claim fails for that variant. -/
theorem claim5_counterexample :
    ¬ (buzzCount EnrollScript.indicate_success = 1 ∧
       ledOnCount EnrollScript.red_led_pin EnrollScript.indicate_failure = 2) := by
  decide

/-- Claim C6: on the `/api` enrollment route, a read timeout yields a 408
response with a JSON error status and message, one Failure signal, and no
remote enroll call; a read followed by a 200 remote enroll response yields a
200 response whose body carries the card identifier and a success status,
and one Success signal; any other remote enroll status yields a 500 response
with a JSON error message and one Failure signal. -/
theorem claim6_enroll_route (cardId : String) (post : EnrollPostOutcome)
    (status : Nat) (hs : status ≠ 200) :
    enroll_route none post =
      { httpStatus := 408, bodyStatus := "error", bodyMessage := "카드 읽기 시간 초과"
        bodyCardId := none, signals := [false], enrollCalled := false } ∧
    enroll_route (some cardId) (EnrollPostOutcome.response 200) =
      { httpStatus := 200, bodyStatus := "success", bodyMessage := "카드 등록 성공"
        bodyCardId := some cardId, signals := [true], enrollCalled := true } ∧
    enroll_route (some cardId) (EnrollPostOutcome.response status) =
      { httpStatus := 500, bodyStatus := "error", bodyMessage := "원격 서버 등록 실패"
        bodyCardId := none, signals := [false], enrollCalled := true } := by
  refine ⟨by cases post <;> rfl, rfl, ?_⟩
  have hb : (status == 200) = false := by simp [hs]
  simp [enroll_route, hb]

/-- Claim C6 witness: the theorem at card `"04a3b2c1"` with remote enroll
status 500 for the failure conjunct. -/
theorem claim6_enroll_route_witness :
    enroll_route none (EnrollPostOutcome.response 200) =
      { httpStatus := 408, bodyStatus := "error", bodyMessage := "카드 읽기 시간 초과"
        bodyCardId := none, signals := [false], enrollCalled := false } ∧
    enroll_route (some "04a3b2c1") (EnrollPostOutcome.response 200) =
      { httpStatus := 200, bodyStatus := "success", bodyMessage := "카드 등록 성공"
        bodyCardId := some "04a3b2c1", signals := [true], enrollCalled := true } ∧
    enroll_route (some "04a3b2c1") (EnrollPostOutcome.response 500) =
      { httpStatus := 500, bodyStatus := "error", bodyMessage := "원격 서버 등록 실패"
        bodyCardId := none, signals := [false], enrollCalled := true } :=
  claim6_enroll_route "04a3b2c1" (EnrollPostOutcome.response 200) 500 (by decide)

/-- Claim C7: `read_card` against a peripheral that never produces a UID
returns `None`, no earlier than the timeout `T` and no later than `T` plus
one poll interval (times in tenths of a second). -/
theorem claim7_read_card_timeout_bounds (T : Nat) :
    (read_card (fun _ => PollResult.noCard) T).1 = none ∧
    T ≤ (read_card (fun _ => PollResult.noCard) T).2 ∧
    (read_card (fun _ => PollResult.noCard) T).2 ≤ T + pollTime := by
  by_cases hT : 0 < T
  · have h := read_card_go_noCard T T 0 0 hT (by omega)
    simp only [read_card]
    exact ⟨h.1, h.2.1, by omega⟩
  · have : T = 0 := by omega
    subst this
    decide

/-- Claim C8: a transient error raised by the peripheral during a poll never
propagates out of `read_card` and never ends the waiting window early — if
the first poll raises and the second poll (still within the window) returns
a UID, `read_card` returns that UID. -/
theorem claim8_transient_error_keeps_window (stub : Nat → PollResult)
    (u : String) (T : Nat) (h0 : stub 0 = PollResult.raises)
    (h1 : stub 1 = PollResult.found u) (hT : errPause < T) :
    (read_card stub T).1 = some u := by
  obtain ⟨n, rfl⟩ : ∃ n, T = n + 2 := ⟨T - 2, by simp only [errPause] at hT; omega⟩
  simp only [read_card, read_card_go, if_pos (by omega : 0 < n + 2), h0, errPause,
    if_pos (by omega : 0 + 1 < n + 2), h1]

/-- Claim C8 witness: a stub raising on poll 0 and presenting card
`"04a3b2c1"` on poll 1, with a 10 s window. -/
theorem claim8_transient_error_keeps_window_witness :
    (read_card (fun i => if i = 0 then PollResult.raises
                         else PollResult.found "04a3b2c1") 100).1 = some "04a3b2c1" :=
  claim8_transient_error_keeps_window _ "04a3b2c1" 100 rfl rfl (by decide)

/-- Claim C9: within a single card-read event of either mode loop, the
indicator signal fires only after the remote-call outcome for that event is
known, and the next `read_card` never begins before the signaling of the
current event has completed — every loop trace passes the ordering checker. -/
theorem claim9_signal_ordering :
    (∀ l, ordCheck false (readerRun l) = true) ∧
    (∀ l, ordCheck false (enrollRun l) = true) :=
  ⟨reader_ordCheck_ok, enroll_ordCheck_ok⟩

/-- Claim C10: constructed with `retry_count = 0`, `_initialize_pn532` makes
zero bring-up attempts, raises nothing and never assigns `self.pn532`
(outcome `skipped`); every subsequent `read_card` poll then hits the
`AttributeError` branch, and the call returns `None` exactly when the full
timeout has elapsed. -/
theorem claim10_zero_retry_unusable (stub : Nat → Bool) (T : Nat) :
    initialize_pn532 stub 0 = ⟨0, 0, InitOutcome.skipped⟩ ∧
    read_card (fun _ => PollResult.raises) T = (none, T) := by
  refine ⟨rfl, ?_⟩
  exact read_card_go_raises T T 0 0 (by omega) (by omega)

end Rfid
